import Mathlib

/-!
Shallow embedding of the service layer of the `dispatch` incident/case
management repository: the participant resolver (`get_or_create` and its
supporting lookups, `src/dispatch/participant/service.py`), the term/definition
upsert (`src/dispatch/term/service.py`), and the entity recalculation flow
(`src/dispatch/entity_type/flows.py`).

The relational store is modelled as explicit state (lists of rows plus id
counters); a transactional session is the state threaded through each
operation.  SQLAlchemy's legacy `Query` semantics are embedded as list
operations: `.first()` is `List.head?` / `List.find?`, `.one_or_none()`
returns the unique match, `none` on no match, and raises
`MultipleResultsFound` when the (entity-deduplicated) result has more than
one row.  Python exceptions surface as an `Except` error value.

External collaborators that are not part of these sources (individual,
incident, case, service and participant-role services; the contact plugin;
entity extraction; the notification dispatcher) are modelled from the spec
as simple lookups on the state, or passed in as function parameters, and are
marked as such in their doc comments.
-/

/-- Python exceptions that the embedded code can raise. -/
inductive DbError where
  /-- SQLAlchemy `MultipleResultsFound`, raised by `.one_or_none()`. -/
  | multipleResultsFound
  /-- Python `AttributeError`, e.g. dereferencing an attribute of `None`. -/
  | attributeError
  /-- Python `NameError`, e.g. reading a never-assigned local variable. -/
  | nameError
  /-- Python `IndexError`, e.g. `email.split("@")[1]` with no `"@"`. -/
  | indexError
  /-- The error raised by `project_service.get_by_name_or_raise` on an
  unknown project. -/
  | notFoundError
deriving Repr, DecidableEq

/-! ## Entity recalculation flow (`src/dispatch/entity_type/flows.py`) -/

/-- The slice of a signal instance that `recalculate_entity_flow` touches:
the entity-type list of its signal definition and its extracted entities
(rows referenced by id). -/
structure SignalInstance where
  /-- `signal_instance.signal.entity_types` — entity types associated with
  the signal definition. -/
  signal_entity_types : List Nat
  /-- `signal_instance.entities` — the extracted entities. -/
  entities : List Nat
deriving Repr, DecidableEq

/-- Python truthiness of the local variable `entity_types`, which holds
either a list or `None` (`if entity_types:`). -/
def pyTruthyListOpt : Option (List Nat) → Bool
  | none => false
  | some l => !l.isEmpty

/-- Shallow embedding of `recalculate_entity_flow`
(`src/dispatch/entity_type/flows.py`, lines 14-50).

External collaborators are parameters: `allScopedTypes` is the result of
`entity_type_service.get_all(scope=EntityScopeEnum.all).all()`,
`find_entities` is `entity_service.find_entities` applied to this signal
instance, and `notify` is the outcome of
`send_entity_update_notification` (`.ok ()` on success, `.error e` when it
raises).

Mirrors the source line by line: the local `entity_types` is first bound to
the all-scoped query result, then rebound to the return value of
`signal_instance.signal.entity_types.append(entity_type)` — which in Python
is `None` (the append itself mutates the signal's entity-type list).

Returns the signal instance as returned, whether `db_session.commit()` was
reached inside the `if entity_types:` block, and the list of warning
messages logged. -/
def recalculate_entity_flow (allScopedTypes : List Nat)
    (find_entities : List Nat → List Nat) (notify : Except String Unit)
    (entity_type : Nat) (signal_instance : SignalInstance) :
    SignalInstance × Bool × List String :=
  -- entity_types = entity_type_service.get_all(...).all()
  let entity_types : Option (List Nat) := some allScopedTypes
  -- entity_types = signal_instance.signal.entity_types.append(entity_type)
  let signal_instance :=
    { signal_instance with
        signal_entity_types := signal_instance.signal_entity_types ++ [entity_type] }
  let entity_types : Option (List Nat) :=
    match entity_types with | _ => none     -- list.append returns None
  -- if entity_types: ... find_entities ...; signal_instance.entities = entities; commit
  let (signal_instance, committed) :=
    if pyTruthyListOpt entity_types then
      ({ signal_instance with entities := find_entities (entity_types.getD []) }, true)
    else
      (signal_instance, false)
  -- try: send_entity_update_notification(...) except Exception as e: log.warning(...)
  let logs : List String :=
    match notify with
    | .ok _ => []
    | .error e => ["Failed to send entity update notification: " ++ e]
  (signal_instance, committed, logs)

/-! ## Theorems: claims C2 and C9 -/

/-- C2: the claim says `recalculate_entity_flow` recomputes the signal
instance's entity set over the all-scoped entity types combined with the
newly added type and persists it.  The code does not: the local
`entity_types` is rebound to the `None` returned by `list.append`, so the
`if entity_types:` block — entity extraction, replacement of the entity
set, and the commit — is dead code.  For every input, the returned
instance's entities equal the input's entities, no commit happens, and the
only observable effect is the appended entity type on the signal
definition's entity-type list. -/
theorem recalculate_entity_flow_never_recalculates
    (allScopedTypes : List Nat) (find_entities : List Nat → List Nat)
    (notify : Except String Unit) (entity_type : Nat) (si : SignalInstance) :
    (recalculate_entity_flow allScopedTypes find_entities notify entity_type si).1.entities
        = si.entities
    ∧ (recalculate_entity_flow allScopedTypes find_entities notify entity_type si).2.1
        = false
    ∧ (recalculate_entity_flow allScopedTypes find_entities notify entity_type
          si).1.signal_entity_types
        = si.signal_entity_types ++ [entity_type] := by
  refine ⟨rfl, rfl, rfl⟩

/-- C9: a failure of the post-recalculation notification send is caught and
only logged: the returned signal instance and the commit state are
identical to those of a run whose notification succeeds, and exactly one
warning is logged. -/
theorem recalculate_entity_flow_notification_failure_isolated
    (allScopedTypes : List Nat) (find_entities : List Nat → List Nat)
    (e : String) (entity_type : Nat) (si : SignalInstance) :
    (recalculate_entity_flow allScopedTypes find_entities (.error e) entity_type si).1
        = (recalculate_entity_flow allScopedTypes find_entities (.ok ()) entity_type si).1
    ∧ (recalculate_entity_flow allScopedTypes find_entities (.error e) entity_type si).2.1
        = (recalculate_entity_flow allScopedTypes find_entities (.ok ()) entity_type si).2.1
    ∧ (recalculate_entity_flow allScopedTypes find_entities (.error e) entity_type si).2.2
        = ["Failed to send entity update notification: " ++ e] := by
  refine ⟨rfl, rfl, rfl⟩

/-! ## Participant data model (`src/dispatch/participant/models.py`) -/

/-- A `ParticipantRole` row (`dispatch.participant_role.models`): a named
role held by a participant; active iff `renounced_at` is null. -/
structure ParticipantRole where
  id : Nat
  role : String
  /-- Null while the role is active; set (to a timestamp) once renounced. -/
  renounced_at : Option Nat
deriving Repr, DecidableEq

/-- The `role` field of a `ParticipantRoleCreate` schema object. -/
structure ParticipantRoleCreate where
  role : String
deriving Repr, DecidableEq

/-- A `Participant` row: the columns and relationships the service layer
reads or writes.  The `service` relationship and the `service_id` column
are kept in sync by the ORM; they are modelled as the single field
`service_id` (`none` ⟺ `participant.service` is `None`). -/
structure Participant where
  id : Nat
  incident_id : Option Nat
  case_id : Option Nat
  individual_contact_id : Option Nat
  service_id : Option Nat
  participant_roles : List ParticipantRole
  team : String
  department : String
  location : String
deriving Repr, DecidableEq

/-- An `IndividualContact` row: id and email. -/
structure IndividualContact where
  id : Nat
  email : String
deriving Repr, DecidableEq

/-- A `Service` row (only its primary key matters here). -/
structure Service where
  id : Nat
deriving Repr, DecidableEq

/-- An `Incident` row: id and owning project. -/
structure Incident where
  id : Nat
  project_id : Nat
deriving Repr, DecidableEq

/-- A `Case` row: id and owning project. -/
structure CaseRow where
  id : Nat
  project_id : Nat
deriving Repr, DecidableEq

/-- The dictionary returned by a contact plugin's `get(email)`: each key
may be absent (`individual_info.get(key, default)`). -/
structure IndividualInfo where
  location : Option String
  team : Option String
  department : Option String
deriving Repr, DecidableEq

/-- The empty dictionary `individual_info = {}` used when no contact plugin
is configured. -/
def IndividualInfo.empty : IndividualInfo := ⟨none, none, none⟩

/-- The database state visible to the participant service: rows of each
table plus autoincrement counters.  `contact_plugin project_id` models
`plugin_service.get_active_instance(project_id=…, plugin_type="contact")`:
`none` when no contact plugin is configured for the project, otherwise the
plugin's `get` capability (email ↦ info dictionary). -/
structure Db where
  participants : List Participant
  individuals : List IndividualContact
  services : List Service
  incidents : List Incident
  cases : List CaseRow
  contact_plugin : Nat → Option (String → IndividualInfo)
  next_participant_id : Nat
  next_role_id : Nat

/-- Python `email.split("@")` on the character list: split on every
occurrence of the separator, keeping empty segments. -/
def splitOnChar (c : Char) : List Char → List (List Char)
  | [] => [[]]
  | x :: xs =>
    match splitOnChar c xs with
    | [] => if x = c then [[], []] else [[x]]
    | y :: ys => if x = c then [] :: y :: ys else (x :: y) :: ys

/-- Python `email.split("@")` as a list of strings. -/
def pySplitAtSign (email : String) : List String :=
  (splitOnChar '@' email.toList).map (fun l => String.mk l)

/-! ## Participant service (`src/dispatch/participant/service.py`) -/

/-- The subject filter of `get_or_create`'s initial query: incident id for
`subject_type == "incident"`, case id otherwise (the source's `else`
branch). -/
def participantMatchesSubject (subject_type : String) (subject_id : Nat)
    (p : Participant) : Bool :=
  if subject_type = "incident" then p.incident_id == some subject_id
  else p.case_id == some subject_id

/-- The row filter of `get_or_create`'s initial query: subject filter plus
`Participant.individual_contact_id == individual_id`. -/
def pairFilter (subject_type : String) (subject_id individual_id : Nat)
    (p : Participant) : Bool :=
  participantMatchesSubject subject_type subject_id p
    && p.individual_contact_id == some individual_id

/-- SQLAlchemy `.one_or_none()` over the (entity-deduplicated) result list:
no row ⟶ `none`, one row ⟶ that row, several rows ⟶
`MultipleResultsFound`. -/
def oneOrNone {α : Type} (l : List α) : Except DbError (Option α) :=
  match l with
  | [] => .ok none
  | [a] => .ok (some a)
  | _ :: _ :: _ => .error .multipleResultsFound

/-- The initial query of `get_or_create` (lines 171-180): filter by subject
and individual, then `.one_or_none()`. -/
def queryParticipant (db : Db) (subject_type : String)
    (subject_id individual_id : Nat) : Except DbError (Option Participant) :=
  oneOrNone (db.participants.filter (pairFilter subject_type subject_id individual_id))

/-- Modelled from the spec: `incident_service.get` / `case_service.get` are
not part of the sources; per the spec they are simple get-by-id lookups,
and `get_or_create` then dereferences `subject.project.id`.  On
`subject_type` neither `"incident"` nor `"case"` the source's local
`subject` is never assigned (`NameError`); on a missing subject the
dereference of `None` is an `AttributeError` (the spec's unguarded
fault). -/
def getSubjectProject (db : Db) (subject_type : String) (subject_id : Nat) :
    Except DbError Nat :=
  if subject_type = "incident" then
    match db.incidents.find? (fun i => i.id == subject_id) with
    | some i => .ok i.project_id
    | none => .error .attributeError
  else if subject_type = "case" then
    match db.cases.find? (fun c => c.id == subject_id) with
    | some c => .ok c.project_id
    | none => .error .attributeError
  else .error .nameError

/-- Modelled from the spec: `individual_service.get`, a get-by-id lookup of
an individual contact. -/
def individual_get (db : Db) (individual_id : Nat) : Option IndividualContact :=
  db.individuals.find? (fun i => i.id == individual_id)

/-- Modelled from the spec: `service_service.get`, a get-by-id lookup of a
service. -/
def service_get (db : Db) (service_id : Nat) : Option Service :=
  db.services.find? (fun s => s.id == service_id)

/-- Modelled from the spec: `participant_role_service.create`, which
persists one `ParticipantRole` row per `ParticipantRoleCreate` (a fresh id;
active, i.e. `renounced_at` null). -/
def participant_role_create (db : Db) (pr : ParticipantRoleCreate) :
    ParticipantRole × Db :=
  (⟨db.next_role_id, pr.role, none⟩, { db with next_role_id := db.next_role_id + 1 })

/-- Creates one role row per requested role, in order. -/
def createRoles (db : Db) : List ParticipantRoleCreate → List ParticipantRole × Db
  | [] => ([], db)
  | pr :: rest =>
    let (r, db') := participant_role_create db pr
    let (rs, db'') := createRoles db' rest
    (r :: rs, db'')

/-- The `ParticipantCreate` schema object as built by `get_or_create`'s
miss path: roles, enrichment strings, and the optional service reference
(`participant_in.service = {"id": service_id}`), carrying only an id. -/
structure ParticipantCreate where
  participant_roles : List ParticipantRoleCreate
  team : String
  department : String
  location : String
  service : Option Nat
deriving Repr, DecidableEq

/-- Shallow embedding of `create`
(`src/dispatch/participant/service.py`, lines 239-258): persist one role
row per requested role; resolve the optional service reference by id
(an unresolvable id yields `None`, silently dropped); insert a
`Participant` built from the schema object's fields.  `ParticipantCreate`
carries no subject or individual reference, so the inserted row's
`incident_id`, `case_id` and `individual_contact_id` columns are null. -/
def create (db : Db) (participant_in : ParticipantCreate) : Participant × Db :=
  let (participant_roles, db) := createRoles db participant_in.participant_roles
  let service : Option Service :=
    match participant_in.service with
    | some sid => service_get db sid
    | none => none
  let participant : Participant :=
    { id := db.next_participant_id
      incident_id := none
      case_id := none
      individual_contact_id := none
      service_id := service.map (fun s => s.id)
      participant_roles := participant_roles
      team := participant_in.team
      department := participant_in.department
      location := participant_in.location }
  (participant,
   { db with
       participants := db.participants ++ [participant]
       next_participant_id := db.next_participant_id + 1 })

/-- The miss path of `get_or_create` (lines 182-217): load the subject's
project, the individual, and the optional contact-plugin info; default
`location`/`department` to `"Unknown"` and `team` to
`individual_contact.email.split("@")[1]` (the split is evaluated before
the dictionary lookup, as Python evaluates the default argument eagerly);
attach the service reference only when `service_id` is truthy; then
`create`.  The integer `service_id` uses Python truthiness: `0` models an
absent (`None`/falsy) service id. -/
def get_or_create_miss (db : Db) (subject_id : Nat) (subject_type : String)
    (individual_id service_id : Nat)
    (participant_roles : List ParticipantRoleCreate) :
    Except DbError (Participant × Db) :=
  match getSubjectProject db subject_type subject_id with
  | .error e => .error e
  | .ok project_id =>
    match individual_get db individual_id with
    | none => .error .attributeError        -- individual_contact.email on None
    | some individual_contact =>
      let individual_info : IndividualInfo :=
        match db.contact_plugin project_id with
        | some pluginGet => pluginGet individual_contact.email
        | none => IndividualInfo.empty
      match (pySplitAtSign individual_contact.email).get? 1 with
      | none => .error .indexError          -- email.split("@")[1] out of range
      | some emailDomain =>
        let location := individual_info.location.getD "Unknown"
        let team := individual_info.team.getD emailDomain
        let department := individual_info.department.getD "Unknown"
        let participant_in : ParticipantCreate :=
          { participant_roles := participant_roles
            team := team
            department := department
            location := location
            service := if service_id ≠ 0 then some service_id else none }
        .ok (create db participant_in)

/-- The hit path of `get_or_create` (lines 218-236): append one freshly
created role row per requested role to the existing participant
(unconditionally, no deduplication); then, only if the participant has no
service yet, look the supplied service id up and associate it when it
resolves; commit. -/
def get_or_create_hit (db : Db) (participant : Participant) (service_id : Nat)
    (participant_roles : List ParticipantRoleCreate) : Participant × Db :=
  let (newRoles, db) := createRoles db participant_roles
  let participant :=
    { participant with participant_roles := participant.participant_roles ++ newRoles }
  let participant :=
    if participant.service_id = none then
      match service_get db service_id with
      | some _ => { participant with service_id := some service_id }
      | none => participant
    else participant
  (participant,
   { db with
       participants :=
         db.participants.map (fun q => if q.id == participant.id then participant else q) })

/-- Shallow embedding of `get_or_create`
(`src/dispatch/participant/service.py`, lines 162-236): query the
participant for the (subject, individual) pair; on a miss run the
enrichment-and-create path, on a hit the role-append and write-once
service-association path. -/
def get_or_create (db : Db) (subject_id : Nat) (subject_type : String)
    (individual_id service_id : Nat)
    (participant_roles : List ParticipantRoleCreate) :
    Except DbError (Participant × Db) :=
  match queryParticipant db subject_type subject_id individual_id with
  | .error e => .error e
  | .ok none =>
    get_or_create_miss db subject_id subject_type individual_id service_id
      participant_roles
  | .ok (some participant) =>
    .ok (get_or_create_hit db participant service_id participant_roles)

/-- The caller-side association of a freshly created participant with its
subject and individual (performed by the incident/case flows outside this
module, e.g. `incident.participants.append(participant)` and
`individual.participant.append(participant)`): sets the pair's foreign
keys on the row with the given id. -/
def linkRow (subject_type : String) (subject_id individual_id : Nat)
    (p : Participant) : Participant :=
  if subject_type = "incident" then
    { p with incident_id := some subject_id
             individual_contact_id := some individual_id }
  else
    { p with case_id := some subject_id
             individual_contact_id := some individual_id }

/-- The caller-side association applied to the row with the given id. -/
def linkParticipant (db : Db) (participant_id : Nat) (subject_type : String)
    (subject_id individual_id : Nat) : Db :=
  { db with
      participants := db.participants.map (fun p =>
        if p.id == participant_id then linkRow subject_type subject_id individual_id p
        else p) }

/-- The row filter of `get_by_incident_id_and_role` after the join: the
participant belongs to the incident and holds at least one role row with
the given name and a null `renounced_at`. -/
def activeRoleMatch (incident_id : Nat) (role : String) (p : Participant) : Bool :=
  p.incident_id == some incident_id
    && p.participant_roles.any (fun r => r.renounced_at == none && r.role == role)

/-- Shallow embedding of `get_by_incident_id_and_role` (lines 49-60):
join participants with their role rows, filter by incident id, null
`renounced_at` and role name, deduplicate entities (legacy `Query`
behaviour), then `.one_or_none()`. -/
def get_by_incident_id_and_role (db : Db) (incident_id : Nat) (role : String) :
    Except DbError (Option Participant) :=
  oneOrNone (db.participants.filter (activeRoleMatch incident_id role))

/-- The row filter of the service-id lookups. -/
def serviceIdFilter (subject_is_incident : Bool) (subject_id service_id : Nat)
    (p : Participant) : Bool :=
  (if subject_is_incident then p.incident_id == some subject_id
   else p.case_id == some subject_id)
    && p.service_id == some service_id

/-- Shallow embedding of `get_by_incident_id_and_service_id`
(lines 103-113): filter by incident id and service id, then `.first()`. -/
def get_by_incident_id_and_service_id (db : Db) (incident_id service_id : Nat) :
    Option Participant :=
  (db.participants.filter (serviceIdFilter true incident_id service_id)).head?

/-- Shallow embedding of `get_by_case_id_and_service_id` (lines 116-125):
filter by case id and service id, then `.one_or_none()`. -/
def get_by_case_id_and_service_id (db : Db) (case_id service_id : Nat) :
    Except DbError (Option Participant) :=
  oneOrNone (db.participants.filter (serviceIdFilter false case_id service_id))

/-! ## Helper lemmas about the participant service -/

/-- Creating role rows changes nothing but the role id counter. -/
theorem createRoles_participants (db : Db) (l : List ParticipantRoleCreate) :
    (createRoles db l).2.participants = db.participants := by
  induction l generalizing db with
  | nil => rfl
  | cons pr rest ih => simpa [createRoles, participant_role_create] using ih _

/-- Creating role rows does not touch the participant id counter. -/
theorem createRoles_next_participant_id (db : Db) (l : List ParticipantRoleCreate) :
    (createRoles db l).2.next_participant_id = db.next_participant_id := by
  induction l generalizing db with
  | nil => rfl
  | cons pr rest ih => simpa [createRoles, participant_role_create] using ih _

/-- Creating role rows does not touch the service table. -/
theorem createRoles_services (db : Db) (l : List ParticipantRoleCreate) :
    (createRoles db l).2.services = db.services := by
  induction l generalizing db with
  | nil => rfl
  | cons pr rest ih => simpa [createRoles, participant_role_create] using ih _

/-- One role row is created per requested role. -/
theorem createRoles_length (db : Db) (l : List ParticipantRoleCreate) :
    (createRoles db l).1.length = l.length := by
  induction l generalizing db with
  | nil => rfl
  | cons pr rest ih => simpa [createRoles, participant_role_create] using ih _

/-- The created role rows carry the requested role names, in order. -/
theorem createRoles_roles (db : Db) (l : List ParticipantRoleCreate) :
    (createRoles db l).1.map (fun r => r.role) = l.map (fun pr => pr.role) := by
  induction l generalizing db with
  | nil => rfl
  | cons pr rest ih => simpa [createRoles, participant_role_create] using ih _

/-- Role-row creation does not change a service lookup. -/
theorem service_get_createRoles (db : Db) (l : List ParticipantRoleCreate)
    (sid : Nat) : service_get (createRoles db l).2 sid = service_get db sid := by
  unfold service_get
  rw [createRoles_services]

/-- The created participant's id is the current autoincrement value. -/
theorem create_id (db : Db) (pin : ParticipantCreate) :
    (create db pin).1.id = db.next_participant_id := by
  show (createRoles db pin.participant_roles).2.next_participant_id
      = db.next_participant_id
  exact createRoles_next_participant_id db pin.participant_roles

/-- `create` appends exactly the created participant to the table. -/
theorem create_participants (db : Db) (pin : ParticipantCreate) :
    (create db pin).2.participants = db.participants ++ [(create db pin).1] := by
  have h : (create db pin).2.participants
      = (createRoles db pin.participant_roles).2.participants ++ [(create db pin).1] := rfl
  rw [h, createRoles_participants]

/-- The row inserted by `create` has no subject or individual reference. -/
theorem create_unlinked (db : Db) (pin : ParticipantCreate) :
    (create db pin).1.incident_id = none ∧ (create db pin).1.case_id = none
      ∧ (create db pin).1.individual_contact_id = none :=
  ⟨rfl, rfl, rfl⟩

/-- The enrichment strings are copied from the schema object. -/
theorem create_strings (db : Db) (pin : ParticipantCreate) :
    (create db pin).1.team = pin.team ∧ (create db pin).1.department = pin.department
      ∧ (create db pin).1.location = pin.location :=
  ⟨rfl, rfl, rfl⟩

/-- A service reference that does not resolve leaves the created row's
`service_id` null. -/
theorem create_service_unresolved (db : Db) (pin : ParticipantCreate) (sid : Nat)
    (hs : pin.service = some sid) (hun : service_get db sid = none) :
    (create db pin).1.service_id = none := by
  simp only [create, hs, service_get_createRoles, hun]
  rfl

/-- The hit path keeps the participant's id. -/
theorem get_or_create_hit_id (db : Db) (p : Participant) (service_id : Nat)
    (roles : List ParticipantRoleCreate) :
    (get_or_create_hit db p service_id roles).1.id = p.id := by
  simp only [get_or_create_hit]
  split
  · split <;> rfl
  · rfl

/-- The hit path appends the created role rows to the participant's role
collection. -/
theorem get_or_create_hit_roles (db : Db) (p : Participant) (service_id : Nat)
    (roles : List ParticipantRoleCreate) :
    (get_or_create_hit db p service_id roles).1.participant_roles
      = p.participant_roles ++ (createRoles db roles).1 := by
  simp only [get_or_create_hit]
  split
  · split <;> rfl
  · rfl

/-- The hit path does not change the number of participant rows. -/
theorem get_or_create_hit_length (db : Db) (p : Participant) (service_id : Nat)
    (roles : List ParticipantRoleCreate) :
    (get_or_create_hit db p service_id roles).2.participants.length
      = db.participants.length := by
  simp only [get_or_create_hit, List.length_map]
  rw [createRoles_participants]

/-- An already-bound service survives the hit path untouched. -/
theorem get_or_create_hit_service_kept (db : Db) (p : Participant)
    (service_id s0 : Nat) (roles : List ParticipantRoleCreate)
    (hs : p.service_id = some s0) :
    (get_or_create_hit db p service_id roles).1.service_id = some s0 := by
  simp only [get_or_create_hit]
  rw [if_neg (by simp [hs])]
  exact hs

/-- A participant with no service gets the supplied service id bound on the
hit path when it resolves. -/
theorem get_or_create_hit_service_bound (db : Db) (p : Participant)
    (service_id : Nat) (roles : List ParticipantRoleCreate)
    (hs : p.service_id = none) (hres : (service_get db service_id).isSome) :
    (get_or_create_hit db p service_id roles).1.service_id = some service_id := by
  simp only [get_or_create_hit]
  rw [if_pos (by simpa using hs)]
  rw [show service_get (createRoles db roles).2 service_id
        = service_get db service_id from service_get_createRoles db roles service_id]
  cases h : service_get db service_id with
  | none => rw [h] at hres; simp at hres
  | some s => rfl

/-- A participant with no service stays unbound on the hit path when the
supplied service id does not resolve. -/
theorem get_or_create_hit_service_unresolved (db : Db) (p : Participant)
    (service_id : Nat) (roles : List ParticipantRoleCreate)
    (hs : p.service_id = none) (hun : service_get db service_id = none) :
    (get_or_create_hit db p service_id roles).1.service_id = none := by
  simp only [get_or_create_hit]
  rw [if_pos (by simpa using hs)]
  rw [show service_get (createRoles db roles).2 service_id
        = service_get db service_id from service_get_createRoles db roles service_id]
  rw [hun]
  exact hs

/-- A pair query that answers "no participant" has an empty filter result. -/
theorem queryParticipant_none_filter (db : Db) (st : String) (sid iid : Nat)
    (hq : queryParticipant db st sid iid = .ok none) :
    db.participants.filter (pairFilter st sid iid) = [] := by
  unfold queryParticipant oneOrNone at hq
  cases h : db.participants.filter (pairFilter st sid iid) with
  | nil => rfl
  | cons a t =>
    cases t with
    | nil => rw [h] at hq; simp at hq
    | cons b t2 => rw [h] at hq; simp at hq

/-- On the miss path, `get_or_create` always delegates to `create`, with the
requested roles and the service reference attached only for a truthy
service id. -/
theorem get_or_create_miss_spec (db : Db) (sid : Nat) (st : String) (iid svc : Nat)
    (roles : List ParticipantRoleCreate) (pid : Nat) (ind : IndividualContact)
    (dom : String)
    (hproj : getSubjectProject db st sid = .ok pid)
    (hind : individual_get db iid = some ind)
    (hdom : (pySplitAtSign ind.email).get? 1 = some dom) :
    ∃ pin : ParticipantCreate,
      get_or_create_miss db sid st iid svc roles = .ok (create db pin)
      ∧ pin.participant_roles = roles
      ∧ pin.service = (if svc ≠ 0 then some svc else none) := by
  simp only [get_or_create_miss, hproj, hind, hdom]
  exact ⟨_, rfl, rfl, rfl⟩

/-- A participant of incident 1 for individual 1, already bound to
service 5 and holding one active role. -/
def pBound : Participant :=
  { id := 3
    incident_id := some 1
    case_id := none
    individual_contact_id := some 1
    service_id := some 5
    participant_roles := [⟨10, "Participant", none⟩]
    team := "t"
    department := "d"
    location := "l" }

/-- Like `pBound`, but with no service bound yet. -/
def pUnbound : Participant :=
  { pBound with service_id := none }

/-- State with an existing service-bound participant and a second service
(id 9) on file. -/
def dbBound : Db :=
  { participants := [pBound]
    individuals := [⟨1, "a@example.com"⟩]
    services := [⟨5⟩, ⟨9⟩]
    incidents := [⟨1, 1⟩]
    cases := []
    contact_plugin := fun _ => none
    next_participant_id := 4
    next_role_id := 11 }

/-- State with an existing participant that has no service bound. -/
def dbUnbound : Db :=
  { dbBound with participants := [pUnbound] }

/-! ## Theorems: claims C3 and C4 -/

/-- C3: on the hit path of `get_or_create`, a participant that already has
a service bound keeps that binding no matter which service id is supplied
(write-once, first association wins); only a participant with no service
yet gets the supplied id bound, and only when it resolves to an existing
service — an unresolvable id leaves the participant unbound. -/
theorem get_or_create_service_write_once (db : Db) (sid : Nat) (st : String)
    (iid svc : Nat) (roles : List ParticipantRoleCreate) (p : Participant)
    (hq : queryParticipant db st sid iid = .ok (some p)) :
    (∀ s0, p.service_id = some s0 →
      (get_or_create db sid st iid svc roles).map (fun r => r.1.service_id)
        = .ok (some s0))
    ∧ (p.service_id = none → (service_get db svc).isSome →
      (get_or_create db sid st iid svc roles).map (fun r => r.1.service_id)
        = .ok (some svc))
    ∧ (p.service_id = none → service_get db svc = none →
      (get_or_create db sid st iid svc roles).map (fun r => r.1.service_id)
        = .ok none) := by
  have hrun : get_or_create db sid st iid svc roles
      = .ok (get_or_create_hit db p svc roles) := by
    simp only [get_or_create, hq]
  refine ⟨?_, ?_, ?_⟩
  · intro s0 hs
    rw [hrun]
    simp [Except.map, get_or_create_hit_service_kept db p svc s0 roles hs]
  · intro hs hres
    rw [hrun]
    simp [Except.map, get_or_create_hit_service_bound db p svc roles hs hres]
  · intro hs hun
    rw [hrun]
    simp [Except.map, get_or_create_hit_service_unresolved db p svc roles hs hun]

/-- C3 witness: the bound participant keeps service 5 when 9 is supplied;
the unbound participant gets 9 bound (it resolves) but stays unbound when
the unresolvable id 7 is supplied. -/
theorem get_or_create_service_write_once_witness :
    ((get_or_create dbBound 1 "incident" 1 9 []).map (fun r => r.1.service_id)
        = .ok (some 5))
    ∧ ((get_or_create dbUnbound 1 "incident" 1 9 []).map (fun r => r.1.service_id)
        = .ok (some 9))
    ∧ ((get_or_create dbUnbound 1 "incident" 1 7 []).map (fun r => r.1.service_id)
        = .ok none) :=
  ⟨(get_or_create_service_write_once dbBound 1 "incident" 1 9 [] pBound
      (by rfl)).1 5 (by rfl),
   (get_or_create_service_write_once dbUnbound 1 "incident" 1 9 [] pUnbound
      (by rfl)).2.1 (by rfl) (by rfl),
   (get_or_create_service_write_once dbUnbound 1 "incident" 1 7 [] pUnbound
      (by rfl)).2.2 (by rfl) (by rfl)⟩

/-- C4: on the hit path of `get_or_create`, every requested role is
appended to the existing participant's role collection unconditionally:
the role count grows by exactly the size of the request list and the role
names are appended in order, with no deduplication against roles already
held. -/
theorem get_or_create_appends_roles_without_dedup (db : Db) (sid : Nat)
    (st : String) (iid svc : Nat) (roles : List ParticipantRoleCreate)
    (p : Participant) (hq : queryParticipant db st sid iid = .ok (some p)) :
    ((get_or_create db sid st iid svc roles).map
        (fun r => r.1.participant_roles.length)
      = .ok (p.participant_roles.length + roles.length))
    ∧ ((get_or_create db sid st iid svc roles).map
        (fun r => r.1.participant_roles.map (fun rr => rr.role))
      = .ok (p.participant_roles.map (fun rr => rr.role)
          ++ roles.map (fun pr => pr.role))) := by
  have hrun : get_or_create db sid st iid svc roles
      = .ok (get_or_create_hit db p svc roles) := by
    simp only [get_or_create, hq]
  constructor
  · rw [hrun]
    simp [Except.map, get_or_create_hit_roles, createRoles_length]
  · rw [hrun]
    simp [Except.map, get_or_create_hit_roles, createRoles_roles]

/-- C4 witness: requesting `["Participant", "Participant"]` — the name the
existing participant already holds — still appends both, growing the role
count from 1 to 3. -/
theorem get_or_create_appends_roles_without_dedup_witness :
    ((get_or_create dbBound 1 "incident" 1 0 [⟨"Participant"⟩, ⟨"Participant"⟩]).map
        (fun r => r.1.participant_roles.length) = .ok 3)
    ∧ ((get_or_create dbBound 1 "incident" 1 0
          [⟨"Participant"⟩, ⟨"Participant"⟩]).map
        (fun r => r.1.participant_roles.map (fun rr => rr.role))
      = .ok ["Participant", "Participant", "Participant"]) :=
  ⟨(get_or_create_appends_roles_without_dedup dbBound 1 "incident" 1 0
      [⟨"Participant"⟩, ⟨"Participant"⟩] pBound (by rfl)).1,
   (get_or_create_appends_roles_without_dedup dbBound 1 "incident" 1 0
      [⟨"Participant"⟩, ⟨"Participant"⟩] pBound (by rfl)).2⟩

/-- `linkRow` does not change the row's id. -/
theorem linkRow_id (st : String) (sid iid : Nat) (p : Participant) :
    (linkRow st sid iid p).id = p.id := by
  unfold linkRow
  split <;> rfl

/-- A linked row satisfies the pair filter of its own pair. -/
theorem pairFilter_linkRow (st : String) (sid iid : Nat) (p : Participant)
    (hst : st = "incident" ∨ st = "case") :
    pairFilter st sid iid (linkRow st sid iid p) = true := by
  rcases hst with h | h <;> subst h <;>
    simp [pairFilter, participantMatchesSubject, linkRow]

/-- Linking changes no row count. -/
theorem linkParticipant_length (db : Db) (pid : Nat) (st : String)
    (sid iid : Nat) :
    (linkParticipant db pid st sid iid).participants.length
      = db.participants.length := by
  simp [linkParticipant]

/-- A fresh state: one incident (id 1, project 1), one individual
(id 1, `a@example.com`), one service (id 5), no participants, no contact
plugin. -/
def dbFresh : Db :=
  { participants := []
    individuals := [⟨1, "a@example.com"⟩]
    services := [⟨5⟩]
    incidents := [⟨1, 1⟩]
    cases := []
    contact_plugin := fun _ => none
    next_participant_id := 1
    next_role_id := 1 }

/-! ## Theorems: claim C1 -/

/-- C1 counterexample: on a fresh state with incident 1 and individual 1,
two successive `get_or_create` calls for the same
(subject id, subject type, individual id) — with no interleaved calls at
all — create two distinct participants (ids 1 and 2; two rows in the
table), because `create` inserts the row without the subject or individual
foreign keys, so the second call's lookup misses again.  The claim says
the second call returns a participant with the first call's id and creates
no additional participant. -/
theorem get_or_create_twice_duplicates :
    ((get_or_create dbFresh 1 "incident" 1 0 []).bind (fun r1 =>
        (get_or_create r1.2 1 "incident" 1 0 []).map (fun r2 =>
          (r1.1.id, r2.1.id, r2.2.participants.length))))
      = .ok (1, 2, 2) := by
  rfl

/-- C1 (amended): on a miss, `get_or_create` creates exactly one new
participant, whose id is the table's next autoincrement value; and once
the caller has associated that participant with the subject and the
individual (`linkParticipant`, as the incident/case flows do after every
`get_or_create`), a second call with the same subject id, subject type and
individual id returns a participant with the same id and creates no
additional participant. -/
theorem get_or_create_idempotent_after_link (db : Db) (sid iid svc1 svc2 : Nat)
    (st : String) (roles1 roles2 : List ParticipantRoleCreate) (pid : Nat)
    (ind : IndividualContact) (dom : String)
    (hst : st = "incident" ∨ st = "case")
    (hq : queryParticipant db st sid iid = .ok none)
    (hproj : getSubjectProject db st sid = .ok pid)
    (hind : individual_get db iid = some ind)
    (hdom : (pySplitAtSign ind.email).get? 1 = some dom)
    (hfresh : ∀ p ∈ db.participants, p.id ≠ db.next_participant_id) :
    ∃ p1 db1,
      get_or_create db sid st iid svc1 roles1 = .ok (p1, db1)
      ∧ p1.id = db.next_participant_id
      ∧ db1.participants.length = db.participants.length + 1
      ∧ (get_or_create (linkParticipant db1 p1.id st sid iid) sid st iid svc2
            roles2).map (fun r => (r.1.id, r.2.participants.length))
        = .ok (p1.id, db1.participants.length) := by
  have hrun1 : get_or_create db sid st iid svc1 roles1
      = get_or_create_miss db sid st iid svc1 roles1 := by
    simp only [get_or_create, hq]
  obtain ⟨pin, hmiss, -, -⟩ :=
    get_or_create_miss_spec db sid st iid svc1 roles1 pid ind dom hproj hind hdom
  refine ⟨(create db pin).1, (create db pin).2, by rw [hrun1, hmiss], create_id db pin,
    by rw [create_participants]; simp, ?_⟩
  have hid : (create db pin).1.id = db.next_participant_id := create_id db pin
  have hparts1 : (create db pin).2.participants
      = db.participants ++ [(create db pin).1] := create_participants db pin
  -- the linked state holds the old rows unchanged plus the linked new row
  have hold : db.participants.map
        (fun p => if p.id == (create db pin).1.id then linkRow st sid iid p else p)
      = db.participants := by
    have h : ∀ p ∈ db.participants,
        (fun p => if p.id == (create db pin).1.id then linkRow st sid iid p else p) p
          = (fun p => p) p := by
      intro p hp
      have hne : p.id ≠ (create db pin).1.id := by
        rw [hid]; exact hfresh p hp
      simp [hne]
    rw [List.map_congr_left h]
    exact List.map_id' _
  have hdb2 : (linkParticipant (create db pin).2 (create db pin).1.id st sid
        iid).participants
      = db.participants ++ [linkRow st sid iid (create db pin).1] := by
    simp only [linkParticipant, hparts1, List.map_append, hold]
    simp
  -- the second call's lookup now hits the linked row
  have hq2 : queryParticipant (linkParticipant (create db pin).2 (create db pin).1.id
        st sid iid) st sid iid = .ok (some (linkRow st sid iid (create db pin).1)) := by
    unfold queryParticipant
    rw [hdb2, List.filter_append, queryParticipant_none_filter db st sid iid hq]
    simp [pairFilter_linkRow st sid iid (create db pin).1 hst, oneOrNone]
  have hrun2 : get_or_create (linkParticipant (create db pin).2 (create db pin).1.id
        st sid iid) sid st iid svc2 roles2
      = .ok (get_or_create_hit (linkParticipant (create db pin).2
          (create db pin).1.id st sid iid) (linkRow st sid iid (create db pin).1)
          svc2 roles2) := by
    simp only [get_or_create, hq2]
  rw [hrun2]
  simp only [Except.map, get_or_create_hit_id, get_or_create_hit_length,
    linkRow_id, linkParticipant_length, hparts1]

/-- C1 witness: the amended idempotency at the fresh state — the first call
creates participant 1, and after the caller-side association the second
call returns id 1 and leaves one row. -/
theorem get_or_create_idempotent_after_link_witness :
    ∃ p1 db1,
      get_or_create dbFresh 1 "incident" 1 0 [] = .ok (p1, db1)
      ∧ p1.id = dbFresh.next_participant_id
      ∧ db1.participants.length = dbFresh.participants.length + 1
      ∧ (get_or_create (linkParticipant db1 p1.id "incident" 1 1) 1 "incident" 1 0
            []).map (fun r => (r.1.id, r.2.participants.length))
        = .ok (p1.id, db1.participants.length) :=
  get_or_create_idempotent_after_link dbFresh 1 1 0 0 "incident" [] [] 1
    ⟨1, "a@example.com"⟩ "example.com" (Or.inl rfl) (by rfl) (by rfl) (by rfl)
    (by rfl) (by intro p hp; simp [dbFresh] at hp)

/-! ## Theorems: claim C5 -/

/-- C5 (amended): `get_by_incident_id_and_role` returns null when every
role record matching the name on the incident's participants is renounced;
it returns the participant when exactly one participant of the incident
holds a matching active role.  (When several participants hold matching
active roles, `.one_or_none()` raises `MultipleResultsFound` instead of
returning a participant — the correction to the claim.) -/
theorem get_by_incident_id_and_role_renounced_and_unique (db : Db)
    (incident_id : Nat) (role : String) :
    ((∀ p ∈ db.participants, p.incident_id = some incident_id →
        ∀ rr ∈ p.participant_roles, rr.role = role → rr.renounced_at ≠ none) →
      get_by_incident_id_and_role db incident_id role = .ok none)
    ∧ (∀ p, db.participants.filter (activeRoleMatch incident_id role) = [p] →
      get_by_incident_id_and_role db incident_id role = .ok (some p)) := by
  constructor
  · intro h
    unfold get_by_incident_id_and_role
    have hfil : db.participants.filter (activeRoleMatch incident_id role) = [] := by
      apply List.filter_eq_nil_iff.mpr
      intro p hp hcontra
      simp only [activeRoleMatch, Bool.and_eq_true, List.any_eq_true,
        beq_iff_eq] at hcontra
      obtain ⟨hinc, rr, hrrmem, hren, hrole⟩ := hcontra
      exact h p hp hinc rr hrrmem hrole hren
    rw [hfil]
    rfl
  · intro p hp
    unfold get_by_incident_id_and_role
    rw [hp]
    rfl

/-- A participant of incident 1 whose only `"commander"` role is
renounced. -/
def pRenounced : Participant :=
  { id := 1
    incident_id := some 1
    case_id := none
    individual_contact_id := some 1
    service_id := none
    participant_roles := [⟨1, "commander", some 100⟩]
    team := "t"
    department := "d"
    location := "l" }

/-- A participant of incident 1 with an active `"commander"` role. -/
def pActive : Participant :=
  { pRenounced with id := 2, individual_contact_id := some 2
                    participant_roles := [⟨2, "commander", none⟩] }

/-- A second participant of incident 1 with an active `"commander"`
role. -/
def pActive2 : Participant :=
  { pRenounced with id := 3, individual_contact_id := some 3
                    participant_roles := [⟨3, "commander", none⟩] }

/-- State where every `"commander"` role of incident 1 is renounced. -/
def dbRenounced : Db :=
  { dbFresh with participants := [pRenounced], next_participant_id := 2 }

/-- State with one renounced and one active `"commander"` role holder. -/
def dbOneActive : Db :=
  { dbFresh with participants := [pRenounced, pActive], next_participant_id := 3 }

/-- State with two distinct participants holding active `"commander"`
roles for incident 1. -/
def dbTwoActive : Db :=
  { dbFresh with participants := [pActive, pActive2], next_participant_id := 4 }

/-- C5 counterexample: with two participants of incident 1 each holding an
active `"commander"` role, at least one matching role is active, yet the
lookup raises `MultipleResultsFound` instead of returning the
participant. -/
theorem get_by_incident_id_and_role_multiple_counterexample :
    get_by_incident_id_and_role dbTwoActive 1 "commander"
        = .error .multipleResultsFound
    ∧ dbTwoActive.participants.any (activeRoleMatch 1 "commander") = true :=
  ⟨rfl, rfl⟩

/-- C5 witness: all-renounced yields null; a unique active holder is
returned. -/
theorem get_by_incident_id_and_role_renounced_and_unique_witness :
    (get_by_incident_id_and_role dbRenounced 1 "commander" = .ok none)
    ∧ (get_by_incident_id_and_role dbOneActive 1 "commander" = .ok (some pActive)) :=
  ⟨(get_by_incident_id_and_role_renounced_and_unique dbRenounced 1 "commander").1
      (by decide),
   (get_by_incident_id_and_role_renounced_and_unique dbOneActive 1 "commander").2
      pActive (by rfl)⟩

/-! ## Theorems: claim C6 -/

/-- C6 (amended): the incident-variant service-id lookup uses `.first()` —
it returns the first matching participant and never raises when several
match, with absence yielding null; the case variant uses `.one_or_none()` —
it returns the unique match, null on absence, but raises
`MultipleResultsFound` when several participants match (the correction to
the claim, which asserted first-match/no-error for both variants). -/
theorem service_id_lookup_first_vs_unique (db : Db) (iid cid svc : Nat) :
    (∀ p rest, db.participants.filter (serviceIdFilter true iid svc) = p :: rest →
      get_by_incident_id_and_service_id db iid svc = some p)
    ∧ (db.participants.filter (serviceIdFilter true iid svc) = [] →
      get_by_incident_id_and_service_id db iid svc = none)
    ∧ (db.participants.filter (serviceIdFilter false cid svc) = [] →
      get_by_case_id_and_service_id db cid svc = .ok none)
    ∧ (∀ p, db.participants.filter (serviceIdFilter false cid svc) = [p] →
      get_by_case_id_and_service_id db cid svc = .ok (some p))
    ∧ (∀ p q rest,
        db.participants.filter (serviceIdFilter false cid svc) = p :: q :: rest →
      get_by_case_id_and_service_id db cid svc = .error .multipleResultsFound) := by
  refine ⟨?_, ?_, ?_, ?_, ?_⟩
  · intro p rest h
    unfold get_by_incident_id_and_service_id
    rw [h]
    rfl
  · intro h
    unfold get_by_incident_id_and_service_id
    rw [h]
    rfl
  · intro h
    unfold get_by_case_id_and_service_id
    rw [h]
    rfl
  · intro p h
    unfold get_by_case_id_and_service_id
    rw [h]
    rfl
  · intro p q rest h
    unfold get_by_case_id_and_service_id
    rw [h]
    rfl

/-- A participant of case 1 bound to service 9. -/
def pCase1 : Participant :=
  { id := 1
    incident_id := none
    case_id := some 1
    individual_contact_id := some 1
    service_id := some 9
    participant_roles := []
    team := "t"
    department := "d"
    location := "l" }

/-- A second participant of case 1 also bound to service 9. -/
def pCase2 : Participant :=
  { pCase1 with id := 2, individual_contact_id := some 2 }

/-- State with one participant of case 1 on service 9. -/
def dbCaseOne : Db :=
  { dbFresh with participants := [pCase1], cases := [⟨1, 1⟩],
                 next_participant_id := 2 }

/-- State with two participants of case 1 on service 9. -/
def dbTwoCase : Db :=
  { dbFresh with participants := [pCase1, pCase2], cases := [⟨1, 1⟩],
                 next_participant_id := 3 }

/-- C6 counterexample: with two participants of case 1 bound to service 9,
the case-variant lookup raises `MultipleResultsFound` — contradicting the
claim that every service-id lookup returns the first match and never
raises on multiple matches. -/
theorem get_by_case_id_and_service_id_raises_counterexample :
    get_by_case_id_and_service_id dbTwoCase 1 9 = .error .multipleResultsFound
    ∧ (dbTwoCase.participants.filter (serviceIdFilter false 1 9)).length = 2 :=
  ⟨rfl, rfl⟩

/-- C6 witness: first-match and null behaviour of the incident variant on
`dbBound`; null, unique and error behaviour of the case variant. -/
theorem service_id_lookup_first_vs_unique_witness :
    (get_by_incident_id_and_service_id dbBound 1 5 = some pBound)
    ∧ (get_by_incident_id_and_service_id dbBound 1 7 = none)
    ∧ (get_by_case_id_and_service_id dbTwoCase 2 9 = .ok none)
    ∧ (get_by_case_id_and_service_id dbCaseOne 1 9 = .ok (some pCase1))
    ∧ (get_by_case_id_and_service_id dbTwoCase 1 9 = .error .multipleResultsFound) :=
  ⟨(service_id_lookup_first_vs_unique dbBound 1 0 5).1 pBound [] (by rfl),
   (service_id_lookup_first_vs_unique dbBound 1 0 7).2.1 (by rfl),
   (service_id_lookup_first_vs_unique dbTwoCase 0 2 9).2.2.1 (by rfl),
   (service_id_lookup_first_vs_unique dbCaseOne 0 1 9).2.2.2.1 pCase1 (by rfl),
   (service_id_lookup_first_vs_unique dbTwoCase 0 1 9).2.2.2.2 pCase1 pCase2 []
     (by rfl)⟩

/-! ## Theorems: claims C7 and C10 -/

/-- C7: on a first creation through `get_or_create` with no contact plugin
configured for the subject's project, the created participant's location
and department default to `"Unknown"` and its team to the domain portion
of the individual's email address (the segment after the first `"@"`, as
computed by `email.split("@")[1]`). -/
theorem get_or_create_defaults_without_contact_plugin (db : Db)
    (sid iid svc : Nat) (st : String) (roles : List ParticipantRoleCreate)
    (pid : Nat) (ind : IndividualContact) (lcl dom : String)
    (hq : queryParticipant db st sid iid = .ok none)
    (hproj : getSubjectProject db st sid = .ok pid)
    (hplug : db.contact_plugin pid = none)
    (hind : individual_get db iid = some ind)
    (hsplit : pySplitAtSign ind.email = [lcl, dom]) :
    (get_or_create db sid st iid svc roles).map
        (fun r => (r.1.location, r.1.department, r.1.team))
      = .ok ("Unknown", "Unknown", dom) := by
  have hrun : get_or_create db sid st iid svc roles
      = get_or_create_miss db sid st iid svc roles := by
    simp only [get_or_create, hq]
  rw [hrun]
  simp only [get_or_create_miss, hproj, hind, hplug, hsplit]
  simp [Except.map, IndividualInfo.empty]
  exact ⟨rfl, rfl, rfl⟩

/-- C7 witness: the spec's scenario — individual `a@example.com`, no
contact plugin — yields location `"Unknown"`, department `"Unknown"`,
team `"example.com"` on first creation. -/
theorem get_or_create_defaults_without_contact_plugin_witness :
    (get_or_create dbFresh 1 "incident" 1 0 []).map
        (fun r => (r.1.location, r.1.department, r.1.team))
      = .ok ("Unknown", "Unknown", "example.com") :=
  get_or_create_defaults_without_contact_plugin dbFresh 1 1 0 "incident" [] 1
    ⟨1, "a@example.com"⟩ "a" "example.com" (by rfl) (by rfl) (by rfl) (by rfl)
    (by rfl)

/-- C10: a service reference whose id resolves to no service is silently
dropped: `create` still inserts the participant (one new row) with a null
`service_id` and raises nothing, and the `get_or_create` miss path
supplying such a truthy service id likewise returns successfully with an
unbound participant and one new row. -/
theorem create_unresolvable_service_silently_dropped (db : Db)
    (sid iid svc : Nat) (st : String) (roles : List ParticipantRoleCreate)
    (pid : Nat) (ind : IndividualContact) (dom : String)
    (hq : queryParticipant db st sid iid = .ok none)
    (hproj : getSubjectProject db st sid = .ok pid)
    (hind : individual_get db iid = some ind)
    (hdom : (pySplitAtSign ind.email).get? 1 = some dom)
    (hsvc : svc ≠ 0)
    (hun : service_get db svc = none) :
    (∀ pin : ParticipantCreate, pin.service = some svc →
      (create db pin).1.service_id = none
      ∧ (create db pin).2.participants.length = db.participants.length + 1)
    ∧ (get_or_create db sid st iid svc roles).map
        (fun r => (r.1.service_id, r.2.participants.length))
      = .ok (none, db.participants.length + 1) := by
  constructor
  · intro pin hs
    refine ⟨create_service_unresolved db pin svc hs hun, ?_⟩
    rw [create_participants]
    simp
  · have hrun : get_or_create db sid st iid svc roles
        = get_or_create_miss db sid st iid svc roles := by
      simp only [get_or_create, hq]
    obtain ⟨pin, hmiss, -, hsvc'⟩ :=
      get_or_create_miss_spec db sid st iid svc roles pid ind dom hproj hind hdom
    have h1 : (create db pin).1.service_id = none :=
      create_service_unresolved db pin svc (by rw [hsvc']; simp [hsvc]) hun
    have h2 : (create db pin).2.participants.length
        = db.participants.length + 1 := by
      rw [create_participants]
      simp
    rw [hrun, hmiss]
    simp [Except.map, h1, h2]

/-- C10 witness: at the fresh state (services: only id 5), supplying the
unresolvable service id 7 on both `create` and the `get_or_create` miss
path yields an unbound participant and one new row, with no error. -/
theorem create_unresolvable_service_silently_dropped_witness :
    ((create dbFresh ⟨[], "t", "d", "l", some 7⟩).1.service_id = none
      ∧ (create dbFresh ⟨[], "t", "d", "l", some 7⟩).2.participants.length
          = dbFresh.participants.length + 1)
    ∧ (get_or_create dbFresh 1 "incident" 1 7 []).map
        (fun r => (r.1.service_id, r.2.participants.length))
      = .ok (none, dbFresh.participants.length + 1) :=
  ⟨(create_unresolvable_service_silently_dropped dbFresh 1 1 7 "incident" [] 1
      ⟨1, "a@example.com"⟩ "example.com" (by rfl) (by rfl) (by rfl) (by rfl)
      (by decide) (by rfl)).1 ⟨[], "t", "d", "l", some 7⟩ rfl,
   (create_unresolvable_service_silently_dropped dbFresh 1 1 7 "incident" [] 1
      ⟨1, "a@example.com"⟩ "example.com" (by rfl) (by rfl) (by rfl) (by rfl)
      (by decide) (by rfl)).2⟩

/-! ## Term/definition model (`src/dispatch/term/service.py`,
`src/dispatch/definition/models.py`) -/

/-- A `Definition` row: unique per (text, owning project)
(`UniqueConstraint("text", "project_id")`). -/
structure Definition where
  id : Nat
  text : String
  project_id : Nat
deriving Repr, DecidableEq

/-- A `DefinitionCreate` schema object: text plus the owning project. -/
structure DefinitionCreate where
  text : String
  project_id : Nat
deriving Repr, DecidableEq

/-- A `Term` row with its associated definitions (ids of the many-to-many
association). -/
structure Term where
  id : Nat
  text : String
  project_id : Nat
  definitions : List Nat
deriving Repr, DecidableEq

/-- A `TermCreate` schema object: text, owning project reference, and the
definition list. -/
structure TermCreate where
  text : String
  project_id : Nat
  definitions : List DefinitionCreate
deriving Repr, DecidableEq

/-- The database state visible to the term service. -/
structure TermDb where
  terms : List Term
  definitions : List Definition
  projects : List Nat
  next_term_id : Nat
  next_definition_id : Nat
deriving Repr, DecidableEq

/-- Modelled from the spec: `definition_service.upsert` is not part of the
sources; per the spec each definition is "upserted by its own unique key",
and definitions are "unique per (text, owning project)" — find by
(text, project), return the existing row's id or insert a fresh row. -/
def definition_upsert (db : TermDb) (d : DefinitionCreate) : Nat × TermDb :=
  match db.definitions.find?
      (fun x => x.text == d.text && x.project_id == d.project_id) with
  | some existing => (existing.id, db)
  | none =>
    (db.next_definition_id,
     { db with
         definitions :=
           db.definitions ++ [⟨db.next_definition_id, d.text, d.project_id⟩]
         next_definition_id := db.next_definition_id + 1 })

/-- Upserts each requested definition in order, collecting the associated
ids (the list comprehension over `term_in.definitions`). -/
def upsertAll (db : TermDb) : List DefinitionCreate → List Nat × TermDb
  | [] => ([], db)
  | d :: rest =>
    let (i, db') := definition_upsert db d
    let (is, db'') := upsertAll db' rest
    (i :: is, db'')

/-- Shallow embedding of the term `update`
(`src/dispatch/term/service.py`, lines 39-57): upsert each requested
definition, copy the updatable scalar fields from the input (of the
overlapping fields only `text` matches), and set the term's definition
association to exactly the upserted list — a full replacement, not a
merge. -/
def term_update (db : TermDb) (term : Term) (term_in : TermCreate) :
    Term × TermDb :=
  let (definitions, db) := upsertAll db term_in.definitions
  let term := { term with text := term_in.text, definitions := definitions }
  (term, { db with terms := db.terms.map (fun t => if t.id == term.id then term else t) })

/-- Shallow embedding of the term `create` (lines 17-33):
`project_service.get_by_name_or_raise` (modelled from the spec as a
lookup that raises on an unknown project), upsert the definitions, insert
the term. -/
def term_create (db : TermDb) (term_in : TermCreate) :
    Except DbError (Term × TermDb) :=
  if db.projects.contains term_in.project_id then
    let (definitions, db') := upsertAll db term_in.definitions
    let term : Term :=
      { id := db'.next_term_id
        text := term_in.text
        project_id := term_in.project_id
        definitions := definitions }
    .ok (term, { db' with terms := db'.terms ++ [term]
                          next_term_id := db'.next_term_id + 1 })
  else .error .notFoundError

/-- Shallow embedding of `update_or_create` (lines 60-68): find the first
term with the given text; update it in place when present, create
otherwise. -/
def update_or_create (db : TermDb) (term_in : TermCreate) :
    Except DbError (Term × TermDb) :=
  match db.terms.find? (fun t => t.text == term_in.text) with
  | some instanceTerm => .ok (term_update db instanceTerm term_in)
  | none => term_create db term_in

/-! ## Theorems: claim C8 -/

/-- C8: when `update_or_create` is called with the text of an existing
term, the term keeps its identity but its associated definition set is
replaced in full by the ids produced by upserting the input's definitions —
whatever definitions were associated before play no part in the result. -/
theorem term_update_or_create_replaces_definitions (db : TermDb)
    (term_in : TermCreate) (t : Term)
    (hfind : db.terms.find? (fun x => x.text == term_in.text) = some t) :
    (update_or_create db term_in).map (fun r => (r.1.id, r.1.definitions))
      = .ok (t.id, (upsertAll db term_in.definitions).1) := by
  simp only [update_or_create, hfind]
  rfl

/-- A term `"foo"` associated with definition 1. -/
def termFoo : Term := ⟨1, "foo", 1, [1]⟩

/-- State holding `termFoo` and its one definition. -/
def termDb0 : TermDb :=
  { terms := [termFoo]
    definitions := [⟨1, "old text", 1⟩]
    projects := [1]
    next_term_id := 2
    next_definition_id := 2 }

/-- C8 witness: upserting `"foo"` with one new definition replaces the
association `[1]` by `[2]` (the freshly upserted definition) — not the
merge `[1, 2]`. -/
theorem term_update_or_create_replaces_definitions_witness :
    (update_or_create termDb0 ⟨"foo", 1, [⟨"new text", 1⟩]⟩).map
        (fun r => (r.1.id, r.1.definitions))
      = .ok (1, [2]) :=
  term_update_or_create_replaces_definitions termDb0 ⟨"foo", 1, [⟨"new text", 1⟩]⟩
    termFoo (by rfl)
